import Mathlib

/-!
Verification of the Taskflow Express/Mongoose backend.

Shallow embedding of the backend's data model and request handlers:
users, tasks and products are plain structures; Mongoose document
`save()` is modelled by applying the schema's pre-save hooks; route
handlers are pure functions from (database, request) to
(database, response).  External libraries (the password hasher and the
email-format validator of the route validators) are abstracted by a
structure carrying the operations together with the properties their
documentation guarantees.
-/

/-- The uniform JSON response envelope `{ success, message }` together
with the HTTP status code of the response. -/
structure Response where
  status : Nat
  success : Bool
  message : String
deriving DecidableEq, Repr

/-- `role ∈ {user, admin, manager}` from the user schema enum. -/
inductive Role where
  | user
  | admin
  | manager
deriving DecidableEq, Repr

/-- A stored user document: the fields of `user.model.js` that the
verified routes read or write.  `password` holds the stored (hashed)
password; the schema stores `email` lowercased. -/
structure User where
  id : Nat
  email : String
  password : String
  role : Role
  isActive : Bool
deriving DecidableEq, Repr

/-- JavaScript's `String.prototype.toLowerCase`, character by character. -/
def lowerStr (s : String) : String :=
  ⟨s.data.map Char.toLower⟩

/-- `userSchema.statics.findByEmail`: `findOne({ email: email.toLowerCase() })`. -/
def findByEmail (db : List User) (email : String) : Option User :=
  db.find? (fun u => u.email == lowerStr email)

/-- `User.findById`. -/
def findById (db : List User) (uid : Nat) : Option User :=
  db.find? (fun u => u.id == uid)

/-- Modelled from the spec: the external password-hashing library
("Password/Token Utilities — hash/verify passwords") and the email-format
check of the route validators.  The spec guarantees the round trip
("login with that same plaintext succeeds") and that a hash is never the
plaintext ("password always stored hashed, never plaintext"). -/
structure ExtLib where
  hash : String → String
  verify : String → String → Bool
  emailOk : String → Bool
  verify_hash : ∀ p, verify p (hash p) = true
  hash_ne : ∀ p, hash p ≠ p

/-- A concrete instance of the external-library interface, used to
evaluate the handlers on closed inputs. -/
def concreteLib : ExtLib where
  hash p := "#" ++ p
  verify c s := s == "#" ++ c
  emailOk s := s.data.contains '@'
  verify_hash p := by simp
  hash_ne p h := by
    have hlen := congrArg String.length h
    simp [String.length_append] at hlen
    exact absurd hlen (by decide)

/-- The validator chain of `POST /api/auth/login`: `email` must be a
valid email, `password` must be non-empty. -/
def loginShapeValid (L : ExtLib) (email password : String) : Bool :=
  L.emailOk email && !(password == "")

/-- The `POST /api/auth/login` handler of `auth.routes.js`: validate the
body, look the user up by email (password included), reject unknown
email, deactivated account, or a failed password comparison with a 401,
otherwise answer 200.  Token issuance and the `lastLogin` update do not
affect the response envelope and are not modelled. -/
def login (L : ExtLib) (db : List User) (email password : String) : Response :=
  if loginShapeValid L email password then
    match findByEmail db email with
    | none => ⟨401, false, "Invalid email or password"⟩
    | some u =>
      if !u.isActive then ⟨401, false, "Account is deactivated"⟩
      else if !(L.verify password u.password) then ⟨401, false, "Invalid email or password"⟩
      else ⟨200, true, "Login successful"⟩
  else ⟨400, false, "Validation failed"⟩

/-- Database with a single deactivated user, for evaluating the login
handler's inactive-account branch. -/
def dbOneInactive : List User :=
  [{ id := 1, email := "a@b.co", password := "#pw", role := Role.user, isActive := false }]

/-- C1 counterexample: a login hitting the inactive-account cause and a
login hitting the unknown-email cause both answer 401, but with
different messages, so the two runs are distinguishable and the claim
that all three causes produce an identical message is false. -/
theorem login_inactive_message_differs :
    (login concreteLib dbOneInactive "a@b.co" "pw").status = 401 ∧
    (login concreteLib dbOneInactive "c@d.co" "pw").status = 401 ∧
    (login concreteLib dbOneInactive "a@b.co" "pw").message ≠
      (login concreteLib dbOneInactive "c@d.co" "pw").message := by
  refine ⟨?_, ?_, ?_⟩ <;> decide

/-- C1 (amended): every login failing on unknown email, deactivated
account, or password mismatch answers 401 with a `success:false`
envelope; the unknown-email and wrong-password causes answer the
identical generic body, so two runs differing only between those two
causes are indistinguishable; the deactivated-account cause answers a
distinct message. -/
theorem login_generic_failure (L : ExtLib) (db : List User) (e p : String)
    (hv : loginShapeValid L e p = true) :
    (findByEmail db e = none → login L db e p = ⟨401, false, "Invalid email or password"⟩) ∧
    (∀ u, findByEmail db e = some u → u.isActive = false →
      login L db e p = ⟨401, false, "Account is deactivated"⟩) ∧
    (∀ u, findByEmail db e = some u → u.isActive = true → L.verify p u.password = false →
      login L db e p = ⟨401, false, "Invalid email or password"⟩) ∧
    (∀ db' e' p', loginShapeValid L e' p' = true → findByEmail db' e' = none →
      ∀ u, findByEmail db e = some u → u.isActive = true → L.verify p u.password = false →
        login L db e p = login L db' e' p') := by
  refine ⟨?_, ?_, ?_, ?_⟩
  · intro hnone
    simp [login, hv, hnone]
  · intro u hu hina
    simp [login, hv, hu, hina]
  · intro u hu hact hverify
    simp [login, hv, hu, hact, hverify]
  · intro db' e' p' hv' hnone' u hu hact hverify
    simp [login, hv, hv', hu, hact, hverify, hnone']

/-- C1 witness: the amended theorem evaluated on a concrete database
where the lookup fails. -/
theorem login_generic_failure_witness :
    login concreteLib [] "a@b.co" "pw" = ⟨401, false, "Invalid email or password"⟩ :=
  (login_generic_failure concreteLib [] "a@b.co" "pw" (by decide)).1 rfl

/-- `status ∈ {pending, in-progress, completed, cancelled}` from the
task schema enum. -/
inductive TaskStatus where
  | pending
  | inProgress
  | completed
  | cancelled
deriving DecidableEq, Repr

/-- A stored task document: the fields of `task.model.js` that the
verified operations read or write.  `progress` is a number constrained
to `[0,100]` by the schema; `completedAt` is a timestamp or `null`. -/
structure TaskDoc where
  status : TaskStatus
  progress : Int
  completedAt : Option Nat
deriving DecidableEq, Repr

/-- `taskSchema.pre("save")`: assign `completedAt` now when the status
is `completed` and no timestamp is present; clear it whenever the
status is not `completed`. -/
def taskPreSave (now : Nat) (t : TaskDoc) : TaskDoc :=
  if t.status = TaskStatus.completed ∧ t.completedAt = none then
    { t with completedAt := some now }
  else if t.status ≠ TaskStatus.completed then
    { t with completedAt := none }
  else t

/-- `taskSchema.methods.updateProgress`: clamp the argument to
`[0,100]`, force status `completed` at 100 and `in-progress` on
`(0,100)`, then `save()` (which runs the pre-save hook). -/
def updateProgress (now : Nat) (t : TaskDoc) (p : Int) : TaskDoc :=
  let pr := max 0 (min 100 p)
  let t1 := { t with progress := pr }
  let t2 :=
    if pr = 100 then { t1 with status := TaskStatus.completed }
    else if pr > 0 then { t1 with status := TaskStatus.inProgress }
    else t1
  taskPreSave now t2

/-- The update body of `PUT /api/tasks/:id`: the task fields present in
`req.body` (the two fields relevant to the invariant). -/
structure TaskUpdateBody where
  status : Option TaskStatus
  progress : Option Int
deriving DecidableEq, Repr

/-- `Task.findByIdAndUpdate(id, req.body, { new: true, runValidators: true })`
applied to a found document: schema validators check the updated
`progress` against its `[0,100]` bounds, then the body's fields replace
the stored ones verbatim.  No document middleware (`pre("save")`) and no
instance method runs on this path. -/
def applyTaskUpdate (t : TaskDoc) (b : TaskUpdateBody) : Except String TaskDoc :=
  let pr := b.progress.getD t.progress
  if pr < 0 then Except.error "Progress cannot be negative"
  else if pr > 100 then Except.error "Progress cannot exceed 100%"
  else Except.ok { t with status := b.status.getD t.status, progress := pr }

/-- The task pre-save hook touches only `completedAt`. -/
theorem taskPreSave_status (now : Nat) (t : TaskDoc) :
    (taskPreSave now t).status = t.status := by
  unfold taskPreSave; split_ifs <;> rfl

/-- The task pre-save hook leaves `progress` unchanged. -/
theorem taskPreSave_progress (now : Nat) (t : TaskDoc) :
    (taskPreSave now t).progress = t.progress := by
  unfold taskPreSave; split_ifs <;> rfl

/-- What `updateProgress` stores: the clamped progress value, and the
status forced by it. -/
theorem updateProgress_fields (now : Nat) (t : TaskDoc) (p : Int) :
    (updateProgress now t p).progress = max 0 (min 100 p) ∧
    (updateProgress now t p).status =
      (if max 0 (min 100 p) = 100 then TaskStatus.completed
       else if max 0 (min 100 p) > 0 then TaskStatus.inProgress
       else t.status) := by
  refine ⟨?_, ?_⟩ <;>
    (simp only [updateProgress]
     split_ifs <;> simp [taskPreSave_status, taskPreSave_progress])

/-- C2 counterexample: updating a pending task through the task-update
route with body `{ progress: 100 }` stores progress 100 with status
still `pending`, so the claimed invariant fails on the update route. -/
theorem taskUpdate_breaks_invariant :
    applyTaskUpdate ⟨TaskStatus.pending, 0, none⟩ ⟨none, some 100⟩ =
      Except.ok ⟨TaskStatus.pending, 100, none⟩ ∧
    (⟨TaskStatus.pending, 100, none⟩ : TaskDoc).progress = 100 ∧
    (⟨TaskStatus.pending, 100, none⟩ : TaskDoc).status ≠ TaskStatus.completed :=
  ⟨rfl, by decide, by decide⟩

/-- C2 (amended): the `updateProgress` method establishes the invariant
— after it runs, progress 100 implies status `completed`, and progress
strictly between 0 and 100 implies status `in-progress` (hence not
`pending`); the task-update route, by contrast, writes the request body
verbatim and does not adjust the status. -/
theorem updateProgress_invariant (now : Nat) (t : TaskDoc) (p : Int) :
    ((updateProgress now t p).progress = 100 →
      (updateProgress now t p).status = TaskStatus.completed) ∧
    (0 < (updateProgress now t p).progress → (updateProgress now t p).progress < 100 →
      (updateProgress now t p).status = TaskStatus.inProgress) := by
  obtain ⟨hp, hs⟩ := updateProgress_fields now t p
  constructor
  · intro h100
    rw [hp] at h100
    rw [hs, if_pos h100]
  · intro h0 h100
    rw [hp] at h0 h100
    rw [hs, if_neg (by omega), if_pos (by omega)]

/-- C2 witness: the amended theorem evaluated at a pending task whose
progress is set to 55. -/
theorem updateProgress_invariant_witness :
    (updateProgress 7 ⟨TaskStatus.pending, 0, none⟩ 55).status = TaskStatus.inProgress :=
  (updateProgress_invariant 7 ⟨TaskStatus.pending, 0, none⟩ 55).2 (by decide) (by decide)

/-- C5: on every task save the pre-save hook sets the completion
timestamp exactly when the status is `completed` (stamping the save
time only when no timestamp was present) and clears it to `null`
whenever the status is anything else; the hook changes no other field. -/
theorem taskPreSave_completedAt (now : Nat) (t : TaskDoc) :
    (taskPreSave now t).completedAt =
      (if t.status = TaskStatus.completed then
        (if t.completedAt = none then some now else t.completedAt)
       else none) ∧
    (taskPreSave now t).status = t.status ∧
    (taskPreSave now t).progress = t.progress := by
  unfold taskPreSave
  by_cases hs : t.status = TaskStatus.completed <;>
    by_cases hc : t.completedAt = none <;> simp_all

/-- A product image subdocument: the fields of the `images` array that
the verified operations read or write. -/
structure Image where
  url : String
  isPrimary : Bool
deriving DecidableEq, Repr

/-- A stored product document: the fields of `product.model.js` that
the verified operations read or write.  The schema constrains `stock`
to be non-negative. -/
structure Product where
  stock : Int
  images : List Image
deriving DecidableEq, Repr

/-- Number of images flagged primary. -/
def countPrimary (l : List Image) : Nat :=
  (l.filter (fun img => img.isPrimary)).length

/-- The `forEach((img, index) => img.isPrimary = index === 0)` loop of
the product pre-save hook, threading the element index. -/
def setFirstPrimary : List Image → Nat → List Image
  | [], _ => []
  | img :: rest, i => { img with isPrimary := i == 0 } :: setFirstPrimary rest (i + 1)

/-- `productSchema.pre("save")`: when more than one image is flagged
primary, keep only the first image of the list primary; otherwise leave
the list untouched. -/
def productPreSave (l : List Image) : List Image :=
  if 0 < l.length then
    if 1 < countPrimary l then setFirstPrimary l 0 else l
  else l

/-- Mongoose `product.save()`: run the pre-save normalization on the
images array. -/
def saveProduct (p : Product) : Product :=
  { p with images := productPreSave p.images }

/-- `productSchema.methods.updateStock`: `stock = Math.max(0, stock + quantity)`,
then `save()`. -/
def updateStock (p : Product) (quantity : Int) : Product :=
  saveProduct { p with stock := max 0 (p.stock + quantity) }

/-- `productSchema.methods.addImage`: when the new image is flagged
primary, first clear the primary flag of every existing image; then
push the new image and `save()`. -/
def addImage (p : Product) (imageData : Image) : Product :=
  let imgs :=
    if imageData.isPrimary then
      p.images.map (fun img => { img with isPrimary := false })
    else p.images
  saveProduct { p with images := imgs ++ [imageData] }

/-- Every image produced by the normalization loop from a positive
starting index is non-primary. -/
theorem setFirstPrimary_succ_false (l : List Image) (i : Nat) :
    ∀ a ∈ setFirstPrimary l (i + 1), a.isPrimary = false := by
  induction l generalizing i with
  | nil => intro x hx; simp [setFirstPrimary] at hx
  | cons b rest ih =>
    intro x hx
    simp only [setFirstPrimary, List.mem_cons] at hx
    rcases hx with h | h
    · subst h; simp
    · exact ih (i + 1) x h

/-- On a non-empty list the normalization loop flags exactly the head. -/
theorem countPrimary_setFirstPrimary (a : Image) (l : List Image) :
    countPrimary (setFirstPrimary (a :: l) 0) = 1 := by
  simp [setFirstPrimary, countPrimary, List.filter_cons]
  exact setFirstPrimary_succ_false l 0

/-- C3: after the pre-save normalization, a product's images list
contains exactly one primary image, or zero when none was flagged
before the save. -/
theorem productPreSave_onePrimary (l : List Image) :
    countPrimary (productPreSave l) = if countPrimary l = 0 then 0 else 1 := by
  unfold productPreSave
  rcases l with _ | ⟨a, rest⟩
  · simp [countPrimary]
  · simp only [List.length_cons, Nat.zero_lt_succ, if_pos]
    by_cases h1 : 1 < countPrimary (a :: rest)
    · rw [if_pos h1, countPrimary_setFirstPrimary]
      rw [if_neg (by omega)]
    · rw [if_neg h1]
      interval_cases h : countPrimary (a :: rest) <;> simp

/-- `countPrimary` distributes over list append. -/
theorem countPrimary_append (l1 l2 : List Image) :
    countPrimary (l1 ++ l2) = countPrimary l1 + countPrimary l2 := by
  simp [countPrimary, List.filter_append]

/-- A list whose images were all demoted has no primary image. -/
theorem countPrimary_demote (l : List Image) :
    countPrimary (l.map (fun img => { img with isPrimary := false })) = 0 := by
  simp [countPrimary]

/-- The pre-save normalization is the identity on an images list with
at most one primary flag. -/
theorem productPreSave_le_one (l : List Image) (h : countPrimary l ≤ 1) :
    productPreSave l = l := by
  unfold productPreSave
  split_ifs with h0 h1
  · omega
  · rfl
  · rfl

/-- C9: `updateStock` stores `max(0, stock + quantity)`, so the stock
after the operation is never negative, even for a withdrawal larger
than the current stock. -/
theorem updateStock_nonneg (p : Product) (q : Int) (h : 0 ≤ p.stock) :
    (updateStock p q).stock = max 0 (p.stock + q) ∧ 0 ≤ (updateStock p q).stock := by
  refine ⟨rfl, ?_⟩
  show (0 : Int) ≤ max 0 (p.stock + q)
  exact le_max_left 0 _

/-- C9 witness: withdrawing 7 from a stock of 3 leaves stock 0. -/
theorem updateStock_nonneg_witness :
    (updateStock ⟨3, []⟩ (-7)).stock = max 0 ((3 : Int) + (-7)) ∧
      0 ≤ (updateStock ⟨3, []⟩ (-7)).stock :=
  updateStock_nonneg ⟨3, []⟩ (-7) (by decide)

/-- C10: starting from a product whose images list has at most one
primary flag, `addImage` appends the new image after demoting every
existing image when the new one is primary (so that exactly the new
image is primary) and leaves existing flags unchanged otherwise; in
both cases the at-most-one-primary bound is preserved. -/
theorem addImage_single_primary (p : Product) (img : Image)
    (h : countPrimary p.images ≤ 1) :
    (addImage p img).images =
      (if img.isPrimary then p.images.map (fun i => { i with isPrimary := false })
       else p.images) ++ [img] ∧
    countPrimary (addImage p img).images ≤ 1 ∧
    (img.isPrimary = true → countPrimary (addImage p img).images = 1) := by
  by_cases hp : img.isPrimary = true
  · have h1 : countPrimary
        (p.images.map (fun i => { i with isPrimary := false }) ++ [img]) = 1 := by
      rw [countPrimary_append, countPrimary_demote]
      simp [countPrimary, hp]
    simp only [addImage, saveProduct, hp, if_pos]
    rw [productPreSave_le_one _ (by omega)]
    exact ⟨rfl, by omega, fun _ => h1⟩
  · have hp' : img.isPrimary = false := by revert hp; cases img.isPrimary <;> simp
    have h1 : countPrimary (p.images ++ [img]) = countPrimary p.images := by
      rw [countPrimary_append]
      simp [countPrimary, hp']
    simp only [addImage, saveProduct, hp', Bool.false_eq_true, if_neg, ite_false]
    rw [productPreSave_le_one _ (by omega)]
    refine ⟨rfl, by omega, ?_⟩
    intro hx
    exact hx.elim

/-- C10 witness: adding a primary image to a product with one existing
primary image leaves exactly the new image primary. -/
theorem addImage_single_primary_witness :
    (addImage ⟨5, [⟨"a.png", true⟩]⟩ ⟨"b.png", true⟩).images =
      [⟨"a.png", false⟩, ⟨"b.png", true⟩] :=
  (addImage_single_primary ⟨5, [⟨"a.png", true⟩]⟩ ⟨"b.png", true⟩ (by decide)).1

/-- A bearer token as seen by the verifier: the payload (`userId`), the
expiry instant, and the secret it was signed with. -/
structure Token where
  userId : Nat
  exp : Nat
  sig : String
deriving DecidableEq, Repr

/-- The two verification failures distinguished by the middleware. -/
inductive JwtError where
  | jsonWebTokenError
  | tokenExpiredError
deriving DecidableEq, Repr

/-- Modelled from the spec: the jsonwebtoken library's `verify` —
"verify the token's signature and expiry" — failing with
`JsonWebTokenError` on a bad signature and `TokenExpiredError` on an
expired token, returning the payload otherwise. -/
def jwtVerify (secret : String) (now : Nat) (t : Token) : Except JwtError Nat :=
  if t.sig != secret then Except.error JwtError.jsonWebTokenError
  else if t.exp < now then Except.error JwtError.tokenExpiredError
  else Except.ok t.userId

/-- The outcome of a middleware: pass control to the next handler with
the user attached, or answer immediately. -/
inductive MidResult where
  | proceed (u : User)
  | reject (r : Response)
deriving DecidableEq, Repr

/-- `authenticateToken` of `auth.middleware.js`: 401 when the
Authorization header carries no bearer token; verify the token and
answer 401 on an invalid or expired one; load the user and answer 401
when it does not exist or is deactivated; otherwise attach the user
and proceed. -/
def authenticateToken (db : List User) (secret : String) (now : Nat)
    (tok : Option Token) : MidResult :=
  match tok with
  | none => MidResult.reject ⟨401, false, "Access token is required"⟩
  | some t =>
    match jwtVerify secret now t with
    | Except.error JwtError.jsonWebTokenError =>
      MidResult.reject ⟨401, false, "Invalid token"⟩
    | Except.error JwtError.tokenExpiredError =>
      MidResult.reject ⟨401, false, "Token has expired"⟩
    | Except.ok uid =>
      match findById db uid with
      | none => MidResult.reject ⟨401, false, "User not found"⟩
      | some u =>
        if !u.isActive then
          MidResult.reject ⟨401, false, "User account is deactivated"⟩
        else MidResult.proceed u

/-- The mounting `app.use("/api/...", authenticateToken, routes)` of
`server.js`: the route handler (which may mutate the persisted state
`σ`) runs only when the middleware proceeds; a rejection answers the
middleware's response and leaves the state untouched. -/
def runProtected {σ : Type} (db : List User) (secret : String) (now : Nat)
    (tok : Option Token) (handler : User → σ → σ × Response) (st : σ) : σ × Response :=
  match authenticateToken db secret now tok with
  | MidResult.proceed u => handler u st
  | MidResult.reject r => (st, r)

/-- The failure causes named by the claim: missing bearer token, bad
signature, expired token, nonexistent user, or deactivated user. -/
def authFailureCause (db : List User) (secret : String) (now : Nat)
    (tok : Option Token) : Prop :=
  tok = none ∨
    ∃ t, tok = some t ∧
      (t.sig ≠ secret ∨ t.exp < now ∨ findById db t.userId = none ∨
        ∃ u, findById db t.userId = some u ∧ u.isActive = false)

/-- C4: whenever a protected request carries no bearer token, an
invalid or expired one, or one referencing a nonexistent or deactivated
user, the middleware answers 401 with a failure envelope and the route
handler never runs, so the persisted state is unchanged. -/
theorem runProtected_unauthorized {σ : Type} (db : List User) (secret : String)
    (now : Nat) (tok : Option Token) (handler : User → σ → σ × Response) (st : σ)
    (h : authFailureCause db secret now tok) :
    ∃ r, runProtected db secret now tok handler st = (st, r) ∧
      r.status = 401 ∧ r.success = false := by
  rcases h with h | ⟨t, rfl, hfail⟩
  · subst h
    exact ⟨_, rfl, rfl, rfl⟩
  · by_cases hsig : t.sig = secret
    · by_cases hexp : t.exp < now
      · refine ⟨⟨401, false, "Token has expired"⟩, ?_, rfl, rfl⟩
        simp [runProtected, authenticateToken, jwtVerify, hsig, hexp]
      · rcases hu : findById db t.userId with _ | u
        · refine ⟨⟨401, false, "User not found"⟩, ?_, rfl, rfl⟩
          simp [runProtected, authenticateToken, jwtVerify, hsig, hexp, hu]
        · have hina : u.isActive = false := by
            rcases hfail with h | h | h | ⟨u', hu', hia⟩
            · exact absurd hsig h
            · exact absurd h hexp
            · rw [h] at hu; cases hu
            · rw [hu'] at hu; cases hu; exact hia
          refine ⟨⟨401, false, "User account is deactivated"⟩, ?_, rfl, rfl⟩
          simp [runProtected, authenticateToken, jwtVerify, hsig, hexp, hu, hina]
    · refine ⟨⟨401, false, "Invalid token"⟩, ?_, rfl, rfl⟩
      simp [runProtected, authenticateToken, jwtVerify, hsig]

/-- C4 witness: a request with an expired token against a one-user
database leaves a counter state unchanged and yields a 401 response. -/
theorem runProtected_unauthorized_witness :
    ∃ r, runProtected [⟨1, "a@b.co", "#pw", Role.user, true⟩] "s" 10
        (some ⟨1, 5, "s"⟩) (fun _ n => (n + 1, ⟨200, true, "ok"⟩)) (0 : Nat) = (0, r) ∧
      r.status = 401 ∧ r.success = false :=
  runProtected_unauthorized _ "s" 10 (some ⟨1, 5, "s"⟩) _ 0
    (Or.inr ⟨⟨1, 5, "s"⟩, rfl, Or.inr (Or.inl (by decide))⟩)

/-- `requireRole` of `auth.middleware.js`: 401 when no user was
attached, 403 when the acting user's role is not in the permitted set,
proceed otherwise. -/
def requireRole (roles : List Role) (user : Option User) : MidResult :=
  match user with
  | none => MidResult.reject ⟨401, false, "Authentication required"⟩
  | some u =>
    if !(roles.contains u.role) then
      MidResult.reject ⟨403, false, "Insufficient permissions"⟩
    else MidResult.proceed u

/-- `DELETE /api/users/:id` of `user.routes.js`: `requireAdmin` guard,
then `findByIdAndDelete`, answering 404 when the target is absent and a
success envelope after removing it. -/
def deleteUser (db : List User) (actor : Option User) (targetId : Nat) :
    List User × Response :=
  match requireRole [Role.admin] actor with
  | MidResult.reject r => (db, r)
  | MidResult.proceed _ =>
    match findById db targetId with
    | none => (db, ⟨404, false, "User not found"⟩)
    | some _ => (db.filter (fun u => u.id != targetId), ⟨200, true, "User deleted successfully"⟩)

/-- C8: for an authenticated request the role guard proceeds exactly
when the acting user's role is in the permitted set, rejecting with 403
otherwise; in particular a non-admin calling the admin-only user-delete
route gets 403 and the user database is unchanged. -/
theorem requireRole_membership (roles : List Role) (u : User) :
    (requireRole roles (some u) = MidResult.proceed u ↔ u.role ∈ roles) ∧
    (u.role ∉ roles →
      requireRole roles (some u) =
        MidResult.reject ⟨403, false, "Insufficient permissions"⟩) ∧
    (∀ db targetId, u.role ≠ Role.admin →
      deleteUser db (some u) targetId =
        (db, ⟨403, false, "Insufficient permissions"⟩)) := by
  refine ⟨⟨?_, ?_⟩, ?_, ?_⟩
  · intro hp
    by_contra hmem
    simp [requireRole, hmem] at hp
  · intro hmem
    simp [requireRole, hmem]
  · intro hmem
    simp [requireRole, hmem]
  · intro db targetId hrole
    simp [deleteUser, requireRole, hrole]

/-- C8 witness: a manager calling the admin-only delete route gets 403
and the database keeps the target user. -/
theorem requireRole_membership_witness :
    deleteUser [⟨2, "t@t.co", "#p", Role.user, true⟩]
        (some ⟨1, "m@m.co", "#q", Role.manager, true⟩) 2 =
      ([⟨2, "t@t.co", "#p", Role.user, true⟩],
        ⟨403, false, "Insufficient permissions"⟩) :=
  (requireRole_membership [Role.admin] ⟨1, "m@m.co", "#q", Role.manager, true⟩).2.2
    [⟨2, "t@t.co", "#p", Role.user, true⟩] 2 (by decide)

/-- The response of the error normalizer: status, the `{ success,
message }` envelope, and whether a stack trace was attached. -/
structure ErrResponse where
  status : Nat
  success : Bool
  message : String
  hasStack : Bool
deriving DecidableEq, Repr

/-- The value carried by a JavaScript error's `code` property: a number
(Mongo duplicate-key errors) or a string (multer upload errors). -/
inductive ErrCode where
  | num (n : Nat)
  | str (s : String)
deriving DecidableEq, Repr

/-- An exception as inspected by the error normalizer: its `name`,
`code`, own `statusCode` (set by `AppError`), `message`, the keys of
`keyValue` (duplicate-key errors) and the messages of `errors`
(validation errors). -/
structure JsError where
  name : Option String
  code : Option ErrCode
  statusCode : Option Nat
  message : String
  keyValueKeys : List String
  errorMessages : List String
deriving DecidableEq, Repr

/-- `errorHandler` of `error.middleware.js`: a sequence of independent
`if` statements, each overwriting the pending (message, statusCode)
pair, followed by `statusCode || 500` and `message || "Server Error"`
defaults; responds with the `{ success: false, message }` envelope,
plus the stack trace in development mode. -/
def errorHandler (devMode : Bool) (e : JsError) : ErrResponse :=
  let s0 : String × Option Nat := (e.message, e.statusCode)
  let s1 := if e.name = some "CastError" then ("Resource not found", some 404) else s0
  let s2 := if e.code = some (ErrCode.num 11000) then
      ((e.keyValueKeys.headD "undefined") ++ " already exists", some 400) else s1
  let s3 := if e.name = some "ValidationError" then
      (String.intercalate ", " e.errorMessages, some 400) else s2
  let s4 := if e.name = some "JsonWebTokenError" then ("Invalid token", some 401) else s3
  let s5 := if e.name = some "TokenExpiredError" then ("Token expired", some 401) else s4
  let s6 := if e.code = some (ErrCode.str "LIMIT_FILE_SIZE") then
      ("File too large", some 400) else s5
  let s7 := if e.code = some (ErrCode.str "LIMIT_UNEXPECTED_FILE") then
      ("Unexpected file field", some 400) else s6
  { status := s7.2.getD 500
    success := false
    message := if s7.1 = "" then "Server Error" else s7.1
    hasStack := devMode }

/-- C6 counterexample: the `notFound` middleware forwards an
`AppError` with `statusCode` 404 and no recognized name or code; the
normalizer answers 404, not 500, so "any other exception yields 500"
is false. -/
theorem errorHandler_other_not_500 :
    (errorHandler false ⟨none, none, some 404, "Route /nope not found", [], []⟩).status = 404 ∧
    (errorHandler false ⟨none, none, some 404, "Route /nope not found", [], []⟩).status ≠ 500 := by
  exact ⟨rfl, by decide⟩

/-- C6 (amended): the normalizer is a state-free mapping — CastError
answers 404 "Resource not found"; a duplicate-key error answers 400
naming the duplicated field; a validation error answers 400 with the
field messages joined by ", "; JWT errors answer 401; multer
upload-limit errors answer 400 with their fixed messages; every
response carries `success: false`; an exception matching none of the
recognized categories answers the status code it carries itself when
present and 500 when it carries none. -/
theorem errorHandler_mapping (dev : Bool) (e : JsError) :
    ((errorHandler dev e).success = false) ∧
    (e.name = some "CastError" → e.code = none →
      (errorHandler dev e).status = 404 ∧
        (errorHandler dev e).message = "Resource not found") ∧
    (e.name = none → e.code = some (ErrCode.num 11000) →
      ∀ f rest, e.keyValueKeys = f :: rest →
        (errorHandler dev e).status = 400 ∧
          (errorHandler dev e).message = f ++ " already exists") ∧
    (e.name = some "ValidationError" → e.code = none →
      (errorHandler dev e).status = 400 ∧
        (String.intercalate ", " e.errorMessages ≠ "" →
          (errorHandler dev e).message = String.intercalate ", " e.errorMessages)) ∧
    ((e.name = some "JsonWebTokenError" ∨ e.name = some "TokenExpiredError") →
      e.code = none → (errorHandler dev e).status = 401) ∧
    (e.code = some (ErrCode.str "LIMIT_FILE_SIZE") →
      (errorHandler dev e).status = 400 ∧
        (errorHandler dev e).message = "File too large") ∧
    (e.code = some (ErrCode.str "LIMIT_UNEXPECTED_FILE") →
      (errorHandler dev e).status = 400 ∧
        (errorHandler dev e).message = "Unexpected file field") ∧
    (e.name ≠ some "CastError" → e.name ≠ some "ValidationError" →
      e.name ≠ some "JsonWebTokenError" → e.name ≠ some "TokenExpiredError" →
      e.code ≠ some (ErrCode.num 11000) → e.code ≠ some (ErrCode.str "LIMIT_FILE_SIZE") →
      e.code ≠ some (ErrCode.str "LIMIT_UNEXPECTED_FILE") →
        (errorHandler dev e).status = e.statusCode.getD 500) := by
  refine ⟨?_, ?_, ?_, ?_, ?_, ?_, ?_, ?_⟩
  · rfl
  · intro hn hc
    simp [errorHandler, hn, hc]
  · intro hn hc f rest hk
    have hne : f ++ " already exists" ≠ "" := by
      intro hcontra
      have hlen := congrArg String.length hcontra
      rw [String.length_append] at hlen
      have h15 : (" already exists" : String).length = 15 := rfl
      have h0 : ("" : String).length = 0 := rfl
      rw [h15, h0] at hlen
      omega
    simp [errorHandler, hn, hc, hk, hne]
  · intro hn hc
    constructor
    · simp [errorHandler, hn, hc]
    · intro hne
      simp [errorHandler, hn, hc, hne]
  · rintro (hn | hn) hc <;> simp [errorHandler, hn, hc]
  · intro hc
    simp [errorHandler, hc]
  · intro hc
    simp [errorHandler, hc]
  · intro hn1 hn2 hn3 hn4 hc1 hc2 hc3
    simp [errorHandler, hn1, hn2, hn3, hn4, hc1, hc2, hc3]

/-- C6 witness: the amended mapping evaluated at a plain CastError. -/
theorem errorHandler_mapping_witness :
    (errorHandler false ⟨some "CastError", none, none, "Cast to ObjectId failed", [], []⟩).status = 404 :=
  ((errorHandler_mapping false
    ⟨some "CastError", none, none, "Cast to ObjectId failed", [], []⟩).2.1 rfl rfl).1

/-- JavaScript's `String.prototype.trim` (restricted to the space
character), as applied by the validator sanitizers. -/
def trimStr (s : String) : String :=
  ⟨((s.data.dropWhile (· == ' ')).reverse.dropWhile (· == ' ')).reverse⟩

/-- The request body of `POST /api/auth/register`. -/
structure RegisterBody where
  firstName : String
  lastName : String
  email : String
  password : String
  role : Role
deriving DecidableEq, Repr

/-- The validator chain of `POST /api/auth/register`: trimmed name
lengths within `[2,50]`, a valid email, password length at least 6, and
a role inside the enum (enforced here by the `Role` type). -/
def registerValid (L : ExtLib) (b : RegisterBody) : Bool :=
  decide (2 ≤ (trimStr b.firstName).length) && decide ((trimStr b.firstName).length ≤ 50) &&
  decide (2 ≤ (trimStr b.lastName).length) && decide ((trimStr b.lastName).length ≤ 50) &&
  L.emailOk b.email &&
  decide (6 ≤ b.password.length)

/-- The `POST /api/auth/register` handler of `auth.routes.js`: answer
400 with the validation failures when the validator chain fails, 400
when the email already belongs to a user, otherwise persist the new
user — the user pre-save hook hashes the password and the schema
lowercases the email — and answer 201.  Token issuance and the
`lastLogin` update do not affect the stored credentials and are not
modelled. -/
def register (L : ExtLib) (db : List User) (newId : Nat) (b : RegisterBody) :
    List User × Response :=
  if registerValid L b then
    match findByEmail db b.email with
    | some _ => (db, ⟨400, false, "User with this email already exists"⟩)
    | none =>
      let u : User :=
        { id := newId, email := lowerStr b.email, password := L.hash b.password,
          role := b.role, isActive := true }
      (db ++ [u], ⟨201, true, "User registered successfully"⟩)
  else (db, ⟨400, false, "Validation failed"⟩)

/-- C7: a valid registration (password length at least 6, email not yet
taken) stores a password different from the submitted plaintext, and a
subsequent login with the same email and plaintext succeeds. -/
theorem register_login_roundtrip (L : ExtLib) (db : List User) (nid : Nat)
    (b : RegisterBody) (hv : registerValid L b = true)
    (hfresh : findByEmail db b.email = none) :
    (register L db nid b).2.status = 201 ∧
    ∃ u, findByEmail (register L db nid b).1 b.email = some u ∧
      u.password ≠ b.password ∧
      login L (register L db nid b).1 b.email b.password =
        ⟨200, true, "Login successful"⟩ := by
  have hcomp := hv
  simp only [registerValid, Bool.and_eq_true, decide_eq_true_eq] at hcomp
  obtain ⟨⟨⟨⟨⟨hf1, hf2⟩, hf3⟩, hf4⟩, hemail⟩, hpw⟩ := hcomp
  have hne : b.password ≠ "" := by
    intro h0
    exact absurd (h0 ▸ hpw) (by decide)
  have hbeq : (b.password == "") = false := by
    rw [beq_eq_false_iff_ne]
    exact hne
  have hshape : loginShapeValid L b.email b.password = true := by
    simp [loginShapeValid, hemail, hbeq]
  have hreg : register L db nid b =
      (db ++ [⟨nid, lowerStr b.email, L.hash b.password, b.role, true⟩],
        ⟨201, true, "User registered successfully"⟩) := by
    simp [register, hv, hfresh]
  have hfind : findByEmail
      (db ++ [⟨nid, lowerStr b.email, L.hash b.password, b.role, true⟩]) b.email =
      some ⟨nid, lowerStr b.email, L.hash b.password, b.role, true⟩ := by
    unfold findByEmail at hfresh ⊢
    rw [List.find?_append, hfresh]
    simp [List.find?]
  refine ⟨by rw [hreg], ⟨nid, lowerStr b.email, L.hash b.password, b.role, true⟩, ?_, ?_, ?_⟩
  · rw [hreg]
    exact hfind
  · exact L.hash_ne b.password
  · rw [hreg]
    simp [login, hshape, hfind, L.verify_hash]

/-- C7 witness: the round trip evaluated on an empty database with a
concrete registration. -/
theorem register_login_roundtrip_witness :
    (register concreteLib [] 1 ⟨"Ann", "Lee", "a@b.co", "secret1", Role.user⟩).2.status = 201 ∧
    ∃ u, findByEmail
        (register concreteLib [] 1 ⟨"Ann", "Lee", "a@b.co", "secret1", Role.user⟩).1
        "a@b.co" = some u ∧
      u.password ≠ "secret1" ∧
      login concreteLib
          (register concreteLib [] 1 ⟨"Ann", "Lee", "a@b.co", "secret1", Role.user⟩).1
          "a@b.co" "secret1" = ⟨200, true, "Login successful"⟩ :=
  register_login_roundtrip concreteLib [] 1 ⟨"Ann", "Lee", "a@b.co", "secret1", Role.user⟩
    (by decide) rfl
